import Mathlib

/-!
Verification of the request-dispatch pipeline and CRUD persistence layer of a
small Rust HTTP-over-TCP user service (`src/main.rs`).

Rust string routines (`str::split` with a string pattern, `str::split_whitespace`,
`str::starts_with`, `str::parse::<i32>`) are embedded over `List Char` / `String`.
The relational store (PostgreSQL) and the JSON codec are external collaborators:
the store is modelled from the spec, and the JSON codec is a parameter of the
execution environment.
-/

namespace SimpleRustApi

/-- Rust `str::starts_with` with a string pattern: a byte-prefix test,
embedded as a character-list prefix test. -/
def rStartsWith (s p : String) : Bool :=
  p.data.isPrefixOf s.data

/-- Leftmost-match step of Rust `str::split` with a (non-empty) string
pattern: `some (before, after)` for the leftmost occurrence of `sep`,
`none` when `sep` does not occur. -/
def splitFirst (sep : List Char) : List Char → Option (List Char × List Char)
  | [] => none
  | c :: rest =>
    if sep ≠ [] ∧ sep.isPrefixOf (c :: rest) then
      some ([], (c :: rest).drop sep.length)
    else
      (splitFirst sep rest).map (fun p => (c :: p.1, p.2))

theorem splitFirst_length {sep : List Char} {s b a : List Char}
    (h : splitFirst sep s = some (b, a)) : a.length < s.length := by
  induction s generalizing b a with
  | nil => simp [splitFirst] at h
  | cons c rest ih =>
    rw [splitFirst] at h
    split at h
    · rename_i hc
      obtain ⟨hsep, -⟩ := hc
      have hlen : 1 ≤ sep.length := by
        cases sep with
        | nil => exact absurd rfl hsep
        | cons _ _ => simp
      simp only [Option.some.injEq, Prod.mk.injEq] at h
      obtain ⟨-, ha⟩ := h
      subst ha
      simp only [List.length_drop, List.length_cons]
      omega
    · simp only [Option.map_eq_some'] at h
      obtain ⟨p, hp, hfa⟩ := h
      have := ih (b := p.1) (a := p.2) (by rw [hp])
      have ha : a = p.2 := by
        cases hfa
        rfl
      subst ha
      simp only [List.length_cons]
      omega

/-- Fuel-driven iteration of `splitFirst`; with enough fuel this is Rust
`str::split` collecting all chunks. Structural recursion keeps concrete
instances kernel-reducible. -/
def splitFuel (sep : List Char) : Nat → List Char → List (List Char)
  | 0, s => [s]
  | fuel + 1, s =>
    match splitFirst sep s with
    | none => [s]
    | some (b, a) => b :: splitFuel sep fuel a

theorem splitFuel_congr {sep : List Char} : ∀ {f₁ f₂ : Nat} {s : List Char},
    s.length < f₁ → s.length < f₂ → splitFuel sep f₁ s = splitFuel sep f₂ s := by
  intro f₁
  induction f₁ with
  | zero => intro f₂ s h₁; omega
  | succ f ih =>
    intro f₂ s h₁ h₂
    cases f₂ with
    | zero => omega
    | succ f' =>
      rw [splitFuel, splitFuel]
      cases hsf : splitFirst sep s with
      | none => rfl
      | some p =>
        obtain ⟨b, a⟩ := p
        have hlt : a.length < s.length := splitFirst_length hsf
        have h3 : a.length < f := by omega
        have h4 : a.length < f' := by omega
        simp only [ih h3 h4]

/-- Rust `str::split(sep)` over character lists (for the non-empty separators
the program uses), as the list of chunks between non-overlapping leftmost
matches of `sep`. -/
def rsplit (sep s : List Char) : List (List Char) :=
  splitFuel sep (s.length + 1) s

theorem rsplit_of_none {sep s : List Char} (h : splitFirst sep s = none) :
    rsplit sep s = [s] := by
  simp [rsplit, splitFuel, h]

theorem rsplit_of_some {sep s b a : List Char} (h : splitFirst sep s = some (b, a)) :
    rsplit sep s = b :: rsplit sep a := by
  have hlt : a.length < s.length := splitFirst_length h
  have h1 : rsplit sep s = b :: splitFuel sep s.length a := by
    rw [rsplit, splitFuel, h]
  rw [h1, rsplit, splitFuel_congr hlt (Nat.lt_succ_self a.length)]

theorem rsplit_ne_nil {sep s : List Char} : rsplit sep s ≠ [] := by
  cases h : splitFirst sep s with
  | none => rw [rsplit_of_none h]; simp
  | some p => rw [rsplit_of_some (b := p.1) (a := p.2) (by rw [h])]; simp

/-- A successful `splitFirst` decomposes the input around the separator. -/
theorem splitFirst_decomp {sep : List Char} : ∀ {s b a : List Char},
    splitFirst sep s = some (b, a) → s = b ++ sep ++ a := by
  intro s
  induction s with
  | nil => intro b a h; simp [splitFirst] at h
  | cons c rest ih =>
    intro b a h
    rw [splitFirst] at h
    split at h
    · rename_i hc
      obtain ⟨hsep, hpre⟩ := hc
      simp only [Option.some.injEq, Prod.mk.injEq] at h
      obtain ⟨hb, ha⟩ := h
      subst hb
      subst ha
      have hpre' : sep <+: (c :: rest) := by
        exact List.isPrefixOf_iff_prefix.mp hpre
      obtain ⟨t, ht⟩ := hpre'
      simp only [List.nil_append]
      conv_lhs => rw [← ht]
      congr 1
      rw [← ht, List.drop_append_of_le_length (by omega)]
      simp
    · simp only [Option.map_eq_some'] at h
      obtain ⟨p, hp, hfa⟩ := h
      cases hfa
      have := ih hp
      simp [this]

/-- When the separator occurs somewhere in the input, `splitFirst` finds an
occurrence. -/
theorem splitFirst_isSome_of_decomp {sep : List Char} (hsep : sep ≠ []) :
    ∀ {x y : List Char}, (splitFirst sep (x ++ sep ++ y)).isSome := by
  intro x
  induction x with
  | nil =>
    intro y
    cases hs : sep ++ y with
    | nil =>
      cases sep with
      | nil => exact absurd rfl hsep
      | cons _ _ => simp at hs
    | cons c rest =>
      simp only [List.nil_append, hs, splitFirst]
      rw [if_pos]
      · simp
      · constructor
        · exact hsep
        · rw [← hs]
          exact List.isPrefixOf_iff_prefix.mpr ⟨y, rfl⟩
  | cons c x' ih =>
    intro y
    simp only [List.cons_append, splitFirst]
    split
    · simp
    · have := ih (y := y)
      rw [Option.isSome_map']
      exact this

/-- Unicode White_Space test used by Rust `char::is_whitespace`. -/
def rustIsWhitespace (c : Char) : Bool :=
  [0x09, 0x0A, 0x0B, 0x0C, 0x0D, 0x20, 0x85, 0xA0, 0x1680,
    0x2028, 0x2029, 0x202F, 0x205F, 0x3000].contains c.toNat
  || (0x2000 ≤ c.toNat && c.toNat ≤ 0x200A)

/-- Fuel-driven tokenizer behind Rust `str::split_whitespace`: maximal runs of
non-whitespace characters, with no empty tokens. -/
def wsFuel : Nat → List Char → List (List Char)
  | 0, _ => []
  | fuel + 1, s =>
    match s.dropWhile rustIsWhitespace with
    | [] => []
    | c :: rest =>
      (c :: rest.takeWhile (fun d => !rustIsWhitespace d)) ::
        wsFuel fuel (rest.dropWhile (fun d => !rustIsWhitespace d))

/-- Rust `str::split_whitespace` collected into a list of tokens. -/
def wsTokens (s : List Char) : List (List Char) :=
  wsFuel (s.length + 1) s

/-- The first `split_whitespace` token is the leading maximal non-whitespace
run after any leading whitespace. -/
theorem wsTokens_head (s : List Char) :
    (wsTokens s).headD [] =
      (s.dropWhile rustIsWhitespace).takeWhile (fun d => !rustIsWhitespace d) := by
  rw [wsTokens, wsFuel]
  cases hd : s.dropWhile rustIsWhitespace with
  | nil => simp
  | cons c rest =>
    have hc : rustIsWhitespace c = false := by
      have := List.head?_dropWhile_not rustIsWhitespace s
      rw [hd] at this
      simpa using this
    simp [List.takeWhile_cons, hc]

/-- Rust `str::parse::<i32>`: optional sign, one or more ASCII digits, value
within the i32 range; anything else is a parse error (`none`). -/
def parseI32 (s : String) : Option Int :=
  let signDigits : Int × List Char :=
    match s.data with
    | '+' :: rest => (1, rest)
    | '-' :: rest => (-1, rest)
    | l => (1, l)
  let digits := signDigits.2
  if digits = [] then none
  else if digits.all (fun c => c.isDigit) then
    let mag : Nat := digits.foldl (fun acc c => acc * 10 + (c.toNat - '0'.toNat)) 0
    let v : Int := signDigits.1 * mag
    if -2147483648 ≤ v ∧ v ≤ 2147483647 then some v else none
  else none

/-- Separator `"/"` used by `get_id` in `src/main.rs`. -/
def slashSep : List Char := ['/']

/-- Header/body separator `"\r\n\r\n"` used by `get_user_request_body`. -/
def headerBodySep : List Char := ['\r', '\n', '\r', '\n']

/-- `get_id` from `src/main.rs`: split the request text by `"/"`, take the
field at zero-based index 2 (`nth(2).unwrap_or_default()`), split that field
by whitespace and take the first token (`next().unwrap_or_default()`). -/
def get_id (request : String) : String :=
  List.asString ((wsTokens (((rsplit slashSep request.data).get? 2).getD [])).headD [])

/-- Body extraction inside `get_user_request_body` in `src/main.rs`:
`request.split("\r\n\r\n").last().unwrap_or_default()`. -/
def user_request_body (request : String) : String :=
  List.asString ((rsplit headerBodySep request.data).getLastD [])

/-- The User model of `src/main.rs`: optional id, name, email. -/
structure User where
  id : Option Int
  name : String
  email : String
deriving DecidableEq

/-- A persisted row: `id SERIAL PRIMARY KEY, name VARCHAR NOT NULL,
email VARCHAR NOT NULL` (schema from `set_database`). -/
structure Row where
  id : Int
  name : String
  email : String
deriving DecidableEq

/-- Modelled from the spec: the relational store owned by the UserStore
component (§4.4), as the list of persisted rows plus the next value of the
auto-incrementing id sequence. -/
structure Store where
  rows : List Row
  nextId : Int
deriving DecidableEq

/-- Modelled from the spec: execution of the parameterized
`INSERT INTO users (name, email) VALUES ($1, $2)` statement (§4.4 `Create`,
§3 lifecycle): the store assigns the id from its own monotone sequence and
appends the row; the assigned id is returned. -/
def insertUser (s : Store) (name email : String) : Store × Int :=
  ({ rows := s.rows ++ [⟨s.nextId, name, email⟩], nextId := s.nextId + 1 }, s.nextId)

/-- Modelled from the spec: execution of the parameterized
`SELECT * FROM users WHERE id = $1` statement via `query_one` (§4.4
`GetById`): the row matching `id`, if any. -/
def selectById (s : Store) (id : Int) : Option Row :=
  s.rows.find? (fun r => r.id == id)

/-- Modelled from the spec: execution of the parameterized
`UPDATE users SET name = $1, email = $2 WHERE id = $3` statement (§4.4
`UpdateById`): replaces name and email of every row matching `id`, reporting
the number of affected rows. -/
def updateById (s : Store) (id : Int) (name email : String) : Store × Nat :=
  ({ s with rows := s.rows.map (fun r => if r.id == id then ⟨r.id, name, email⟩ else r) },
    (s.rows.filter (fun r => r.id == id)).length)

/-- Modelled from the spec: execution of the parameterized
`DELETE FROM users WHERE id = $1` statement (§4.4 `DeleteById`): removes
every row matching `id`, reporting the number of affected rows. -/
def deleteById (s : Store) (id : Int) : Store × Nat :=
  ({ s with rows := s.rows.filter (fun r => r.id != id) },
    (s.rows.filter (fun r => r.id == id)).length)

/-- Status line constants of `src/main.rs`. -/
def OK_RESPONSE : String := "HTTP/1.1 200 OK\r\nContent-Type: application/json\r\n\r\n"

/-- Status line constant for 404 responses. -/
def NOT_FOUND : String := "HTTP/1.1 404 NOT FOUND\r\n\r\n"

/-- Status line constant for 500 responses. -/
def INTERNAL_ERROR : String := "HTTP/1.1 500 INTERNAL ERROR\r\n\r\n"

/-- SQL statement text of the create handler. -/
def INSERT_SQL : String := "INSERT INTO users (name, email) VALUES ($1, $2)"

/-- SQL statement text of the read-by-id handler. -/
def SELECT_ONE_SQL : String := "SELECT * FROM users WHERE id = $1"

/-- SQL statement text of the list-all handler. -/
def SELECT_ALL_SQL : String := "SELECT id, name, email FROM users"

/-- SQL statement text of the update handler. -/
def UPDATE_SQL : String := "UPDATE users SET name = $1, email = $2 WHERE id = $3"

/-- SQL statement text of the delete handler. -/
def DELETE_SQL : String := "DELETE FROM users WHERE id = $1"

/-- A bound parameter of a parameterized SQL statement. -/
inductive Param where
  | int (i : Int)
  | str (s : String)
deriving DecidableEq

/-- A statement sent to the store: constant text plus bound parameters. -/
structure Stmt where
  text : String
  params : List Param
deriving DecidableEq

/-- Result of running one handler: either a `(status_line, content)` response
pair, or a panic (a Rust `unwrap()` on an `Err`), which kills the process. -/
inductive Outcome where
  | resp (status content : String)
  | panicked
deriving DecidableEq

/-- Whether an outcome is a response written back to the peer. -/
def Outcome.isResp : Outcome → Bool
  | .resp _ _ => true
  | .panicked => false

/-- Everything a handler produces: its outcome, the store afterwards, and the
statements it sent to the store. -/
structure HandlerOut where
  outcome : Outcome
  store : Store
  trace : List Stmt
deriving DecidableEq

/-- The external world of one request: whether `Client::connect` succeeds,
whether the store fails the statement sent to it (a QueryError), the JSON
codec (an external capability per the spec), and the store contents. -/
structure Env where
  connectOk : Bool
  queryFails : Bool
  decodeUser : String → Option User
  encodeUser : User → String
  encodeUsers : List User → String
  store : Store

/-- `get_user_request_body` from `src/main.rs`: JSON-decode the text after the
last `"\r\n\r\n"` into a `User`. -/
def get_user_request_body (env : Env) (request : String) : Option User :=
  env.decodeUser (user_request_body request)

/-- `handle_post_request` from `src/main.rs`: on decoded body and successful
connect, `execute` the INSERT (its result `unwrap`ped, so a statement failure
panics) and answer 200 `"User created"`; otherwise answer 500. -/
def handle_post_request (env : Env) (request : String) : HandlerOut :=
  match get_user_request_body env request, env.connectOk with
  | some user, true =>
    let st : Stmt := ⟨INSERT_SQL, [.str user.name, .str user.email]⟩
    if env.queryFails then ⟨.panicked, env.store, [st]⟩
    else ⟨.resp OK_RESPONSE "User created", (insertUser env.store user.name user.email).1, [st]⟩
  | _, _ => ⟨.resp INTERNAL_ERROR "Internal error", env.store, []⟩

/-- `handle_get_request` from `src/main.rs`: on parsed id and successful
connect, `query_one` the SELECT; a returned row is answered as 200 with the
JSON-encoded user, and any `query_one` failure (no row, or a query error) is
answered as 404 `"User not found"`; otherwise answer 500. -/
def handle_get_request (env : Env) (request : String) : HandlerOut :=
  match parseI32 (get_id request), env.connectOk with
  | some id, true =>
    let st : Stmt := ⟨SELECT_ONE_SQL, [.int id]⟩
    if env.queryFails then ⟨.resp NOT_FOUND "User not found", env.store, [st]⟩
    else
      match selectById env.store id with
      | some row =>
        ⟨.resp OK_RESPONSE (env.encodeUser ⟨some row.id, row.name, row.email⟩), env.store, [st]⟩
      | none => ⟨.resp NOT_FOUND "User not found", env.store, [st]⟩
  | _, _ => ⟨.resp INTERNAL_ERROR "Internal error", env.store, []⟩

/-- `handle_get_all_request` from `src/main.rs`: on successful connect, `query`
the SELECT (its result `unwrap`ped, so a statement failure panics) and answer
200 with the JSON-encoded user list; otherwise answer 500. The request text is
ignored. -/
def handle_get_all_request (env : Env) (_request : String) : HandlerOut :=
  match env.connectOk with
  | true =>
    let st : Stmt := ⟨SELECT_ALL_SQL, []⟩
    if env.queryFails then ⟨.panicked, env.store, [st]⟩
    else
      ⟨.resp OK_RESPONSE
          (env.encodeUsers (env.store.rows.map (fun r => ⟨some r.id, r.name, r.email⟩))),
        env.store, [st]⟩
  | false => ⟨.resp INTERNAL_ERROR "Internal error", env.store, []⟩

/-- `handle_put_request` from `src/main.rs`: on parsed id, decoded body and
successful connect, `execute` the UPDATE (its result `unwrap`ped, so a
statement failure panics; the affected-row count is discarded) and answer 200
`"User updated"`; otherwise answer 500. -/
def handle_put_request (env : Env) (request : String) : HandlerOut :=
  match parseI32 (get_id request), get_user_request_body env request, env.connectOk with
  | some id, some user, true =>
    let st : Stmt := ⟨UPDATE_SQL, [.str user.name, .str user.email, .int id]⟩
    if env.queryFails then ⟨.panicked, env.store, [st]⟩
    else ⟨.resp OK_RESPONSE "User updated", (updateById env.store id user.name user.email).1, [st]⟩
  | _, _, _ => ⟨.resp INTERNAL_ERROR "Internal error", env.store, []⟩

/-- `handle_delete_request` from `src/main.rs`: on parsed id and successful
connect, `execute` the DELETE (its result `unwrap`ped, so a statement failure
panics); zero affected rows answer 404 `"User not found"`, otherwise 200
`"User deleted"`; a parse/connect failure answers 500. -/
def handle_delete_request (env : Env) (request : String) : HandlerOut :=
  match parseI32 (get_id request), env.connectOk with
  | some id, true =>
    let st : Stmt := ⟨DELETE_SQL, [.int id]⟩
    if env.queryFails then ⟨.panicked, env.store, [st]⟩
    else
      let res := deleteById env.store id
      if res.2 = 0 then ⟨.resp NOT_FOUND "User not found", res.1, [st]⟩
      else ⟨.resp OK_RESPONSE "User deleted", res.1, [st]⟩
  | _, _ => ⟨.resp INTERNAL_ERROR "Internal error", env.store, []⟩

/-- The routing targets of the `match` in `handle_client`. -/
inductive RouteTarget where
  | create
  | readById
  | listAll
  | updateRoute
  | deleteRoute
  | noMatch
deriving DecidableEq

/-- The routing `match` of `handle_client` in `src/main.rs`: `starts_with`
tests in the source's fixed order, falling through to not-found. -/
def route_action (r : String) : RouteTarget :=
  if rStartsWith r "POST /users" then .create
  else if rStartsWith r "GET /users/" then .readById
  else if rStartsWith r "GET /users" then .listAll
  else if rStartsWith r "PUT /users/" then .updateRoute
  else if rStartsWith r "DELETE /users/" then .deleteRoute
  else .noMatch

/-- `handle_client` from `src/main.rs`, after a successful read of the request
text: dispatch on `route_action` and produce the `(status_line, content)`
response (or a panic propagated from a handler). -/
def handle_client (env : Env) (request : String) : HandlerOut :=
  match route_action request with
  | .create => handle_post_request env request
  | .readById => handle_get_request env request
  | .listAll => handle_get_all_request env request
  | .updateRoute => handle_put_request env request
  | .deleteRoute => handle_delete_request env request
  | .noMatch => ⟨.resp NOT_FOUND "404 not found", env.store, []⟩

/-- A concrete JSON codec for concrete test requests: the exact body text
`"BODY"` decodes to Bob with no id; everything else fails to decode. -/
def testDecode : String → Option User :=
  fun s => if s = "BODY" then some ⟨none, "Bob", "bob@x.com"⟩ else none

/-- A concrete environment for concrete test requests: connection and
statements succeed, the store is empty with the id sequence at 1. -/
def testEnv : Env where
  connectOk := true
  queryFails := false
  decodeUser := testDecode
  encodeUser := fun _ => ""
  encodeUsers := fun _ => ""
  store := ⟨[], 1⟩

/-- Two `starts_with` patterns, neither a prefix of the other, cannot both
match the same request text. -/
theorem rStartsWith_excl {r p q : String} (hq : rStartsWith r q = true)
    (h₁ : ¬ p.data <+: q.data) (h₂ : ¬ q.data <+: p.data) :
    rStartsWith r p = false := by
  by_contra hp
  rw [Bool.not_eq_false] at hp
  have hq' : q.data <+: r.data := List.isPrefixOf_iff_prefix.mp hq
  have hp' : p.data <+: r.data := List.isPrefixOf_iff_prefix.mp hp
  rcases List.prefix_or_prefix_of_prefix hp' hq' with h | h
  · exact h₁ h
  · exact h₂ h

theorem route_post {r : String} (h : rStartsWith r "POST /users" = true) :
    route_action r = .create := by
  simp [route_action, h]

theorem route_get_one {r : String} (h : rStartsWith r "GET /users/" = true) :
    route_action r = .readById := by
  have h1 : rStartsWith r "POST /users" = false :=
    rStartsWith_excl h (by decide) (by decide)
  simp [route_action, h, h1]

theorem route_get_all {r : String} (h : rStartsWith r "GET /users" = true)
    (h2 : rStartsWith r "GET /users/" = false) :
    route_action r = .listAll := by
  have h1 : rStartsWith r "POST /users" = false :=
    rStartsWith_excl h (by decide) (by decide)
  simp [route_action, h, h1, h2]

theorem route_put {r : String} (h : rStartsWith r "PUT /users/" = true) :
    route_action r = .updateRoute := by
  have h1 : rStartsWith r "POST /users" = false :=
    rStartsWith_excl h (by decide) (by decide)
  have h2 : rStartsWith r "GET /users/" = false :=
    rStartsWith_excl h (by decide) (by decide)
  have h3 : rStartsWith r "GET /users" = false :=
    rStartsWith_excl h (by decide) (by decide)
  simp [route_action, h, h1, h2, h3]

theorem route_delete {r : String} (h : rStartsWith r "DELETE /users/" = true) :
    route_action r = .deleteRoute := by
  have h1 : rStartsWith r "POST /users" = false :=
    rStartsWith_excl h (by decide) (by decide)
  have h2 : rStartsWith r "GET /users/" = false :=
    rStartsWith_excl h (by decide) (by decide)
  have h3 : rStartsWith r "GET /users" = false :=
    rStartsWith_excl h (by decide) (by decide)
  have h4 : rStartsWith r "PUT /users/" = false :=
    rStartsWith_excl h (by decide) (by decide)
  simp [route_action, h, h1, h2, h3, h4]

/-- C1: the router tests route predicates in the fixed priority order
POST /users, GET /users/, GET /users, PUT /users/, DELETE /users/, falling
through to not-found; in particular every request text beginning with
`"GET /users/"` is dispatched to the read-by-id action and never to the
list-all action. -/
theorem C1_router_priority (r : String) :
    (rStartsWith r "POST /users" = true → route_action r = .create) ∧
    (rStartsWith r "GET /users/" = true →
      route_action r = .readById ∧ route_action r ≠ .listAll) ∧
    (rStartsWith r "GET /users" = true → rStartsWith r "GET /users/" = false →
      route_action r = .listAll) ∧
    (rStartsWith r "PUT /users/" = true → route_action r = .updateRoute) ∧
    (rStartsWith r "DELETE /users/" = true → route_action r = .deleteRoute) ∧
    (rStartsWith r "POST /users" = false → rStartsWith r "GET /users/" = false →
      rStartsWith r "GET /users" = false → rStartsWith r "PUT /users/" = false →
      rStartsWith r "DELETE /users/" = false → route_action r = .noMatch) := by
  refine ⟨route_post, ?_, route_get_all, route_put, route_delete, ?_⟩
  · intro h
    rw [route_get_one h]
    exact ⟨rfl, by decide⟩
  · intro h1 h2 h3 h4 h5
    simp [route_action, h1, h2, h3, h4, h5]

/-- Witness for C1 at a concrete single-record read request. -/
theorem C1_router_priority_witness :
    route_action "GET /users/1 HTTP/1.1" = RouteTarget.readById ∧
    route_action "GET /users/1 HTTP/1.1" ≠ RouteTarget.listAll :=
  (C1_router_priority "GET /users/1 HTTP/1.1").2.1 (by decide)

/-- C10: route matching is by raw-text prefix only: every request text
beginning with `"POST /users"` — including one whose path carries an id, such
as `"POST /users/7"` — is dispatched to the create action; the create handler
sends exactly one INSERT whose parameters are the decoded body's name and
email and inserts exactly those, so neither a path id nor a body-supplied id
influences the inserted row: two requests whose decoded bodies agree on name
and email produce identical create behaviour. -/
theorem C10_create_ignores_ids :
    (∀ r : String, rStartsWith r "POST /users" = true → route_action r = .create) ∧
    (∀ (env : Env) (r : String) (user : User),
      get_user_request_body env r = some user → env.connectOk = true →
      env.queryFails = false →
      handle_post_request env r =
        ⟨.resp OK_RESPONSE "User created", (insertUser env.store user.name user.email).1,
          [⟨INSERT_SQL, [.str user.name, .str user.email]⟩]⟩) ∧
    (∀ (env₁ env₂ : Env) (r₁ r₂ : String) (u₁ u₂ : User),
      get_user_request_body env₁ r₁ = some u₁ → get_user_request_body env₂ r₂ = some u₂ →
      env₁.connectOk = env₂.connectOk → env₁.queryFails = env₂.queryFails →
      env₁.store = env₂.store →
      u₁.name = u₂.name → u₁.email = u₂.email →
      handle_post_request env₁ r₁ = handle_post_request env₂ r₂) := by
  refine ⟨fun r h => route_post h, ?_, ?_⟩
  · intro env r user hb hc hq
    rw [handle_post_request, hb, hc]
    simp [hq]
  · intro env₁ env₂ r₁ r₂ u₁ u₂ hb₁ hb₂ hc hq hs hn he
    rw [handle_post_request, handle_post_request, hb₁, hb₂, ← hc, ← hq, ← hs]
    cases env₁.connectOk with
    | false => rfl
    | true =>
      cases hf : env₁.queryFails with
      | true => simp [hn, he]
      | false => simp [hn, he, hs]

/-- Witness for C10: a POST whose path carries an id routes to create, and the
create behaviour at a concrete decoded body. -/
theorem C10_create_ignores_ids_witness :
    route_action "POST /users/7 HTTP/1.1" = RouteTarget.create ∧
    handle_post_request testEnv "POST /users/7 HTTP/1.1\r\n\r\nBODY" =
      ⟨.resp OK_RESPONSE "User created", (insertUser testEnv.store "Bob" "bob@x.com").1,
        [⟨INSERT_SQL, [.str "Bob", .str "bob@x.com"]⟩]⟩ :=
  ⟨C10_create_ignores_ids.1 "POST /users/7 HTTP/1.1" (by decide),
    C10_create_ignores_ids.2.1 testEnv "POST /users/7 HTTP/1.1\r\n\r\nBODY"
      ⟨none, "Bob", "bob@x.com"⟩ (by decide) rfl rfl⟩

/-- The fixed set of SQL statement texts the program can send to the store. -/
def sqlStatements : List String :=
  [INSERT_SQL, SELECT_ONE_SQL, SELECT_ALL_SQL, UPDATE_SQL, DELETE_SQL]

/-- A one-statement trace passes the fixed-set check when its text is in the
fixed set. -/
theorem all_contains_singleton {t : String} {ps : List Param}
    (h : sqlStatements.contains t = true) :
    (List.all [Stmt.mk t ps] (fun st => sqlStatements.contains st.text)) = true := by
  simp only [List.all_cons, List.all_nil, Bool.and_true]
  exact h

/-- C9: every statement sent to the store over a whole request has its text
drawn from the fixed constant set `sqlStatements`, for every request text and
every environment; only the bound parameter values vary with the input, so no
statement text is built from request data. -/
theorem C9_parameterized_sql (env : Env) (r : String) :
    ((handle_client env r).trace.all (fun st => sqlStatements.contains st.text)) = true := by
  rw [handle_client]
  cases route_action r with
  | create =>
    rw [handle_post_request]
    cases hb : get_user_request_body env r with
    | none => cases env.connectOk <;> rfl
    | some user =>
      cases env.connectOk with
      | false => rfl
      | true =>
        cases hf : env.queryFails <;> simp only [Bool.false_eq_true, if_false, if_true] <;>
          exact all_contains_singleton (by decide)
  | readById =>
    rw [handle_get_request]
    cases hi : parseI32 (get_id r) with
    | none => cases env.connectOk <;> rfl
    | some id =>
      cases env.connectOk with
      | false => rfl
      | true =>
        cases hf : env.queryFails with
        | true => exact all_contains_singleton (by decide)
        | false =>
          dsimp only
          cases selectById env.store id <;> exact all_contains_singleton (by decide)
  | listAll =>
    rw [handle_get_all_request]
    cases env.connectOk with
    | false => rfl
    | true => cases hf : env.queryFails <;> exact all_contains_singleton (by decide)
  | updateRoute =>
    rw [handle_put_request]
    cases hi : parseI32 (get_id r) with
    | none => cases hb : get_user_request_body env r <;> cases env.connectOk <;> rfl
    | some id =>
      cases hb : get_user_request_body env r with
      | none => cases env.connectOk <;> rfl
      | some user =>
        cases env.connectOk with
        | false => rfl
        | true => cases hf : env.queryFails <;> exact all_contains_singleton (by decide)
  | deleteRoute =>
    rw [handle_delete_request]
    cases hi : parseI32 (get_id r) with
    | none => cases env.connectOk <;> rfl
    | some id =>
      cases env.connectOk with
      | false => rfl
      | true =>
        cases hf : env.queryFails with
        | true => exact all_contains_singleton (by decide)
        | false =>
          by_cases hz : (deleteById env.store id).2 = 0 <;>
            simp only [hz, if_true, if_false] <;> exact all_contains_singleton (by decide)
  | noMatch => rfl

/-- C7: on each id-addressed route (read, update and delete by id) an id token
that fails i32 parsing — per §4.2 a non-numeric or empty token, and the empty
token does fail the parse — yields the generic 500 outcome and never the 404
outcome, whatever the environment. -/
theorem C7_bad_id_internal_error :
    parseI32 "" = none ∧
    ∀ (env : Env) (r : String), parseI32 (get_id r) = none →
      (handle_get_request env r).outcome = .resp INTERNAL_ERROR "Internal error" ∧
      (handle_put_request env r).outcome = .resp INTERNAL_ERROR "Internal error" ∧
      (handle_delete_request env r).outcome = .resp INTERNAL_ERROR "Internal error" ∧
      (handle_get_request env r).outcome ≠ .resp NOT_FOUND "User not found" ∧
      (handle_put_request env r).outcome ≠ .resp NOT_FOUND "User not found" ∧
      (handle_delete_request env r).outcome ≠ .resp NOT_FOUND "User not found" := by
  refine ⟨by decide, ?_⟩
  intro env r h
  have hg : (handle_get_request env r).outcome = .resp INTERNAL_ERROR "Internal error" := by
    cases hc : env.connectOk <;> rw [handle_get_request, h, hc]
  have hp : (handle_put_request env r).outcome = .resp INTERNAL_ERROR "Internal error" := by
    cases hb : get_user_request_body env r <;> cases hc : env.connectOk <;>
      rw [handle_put_request, h, hb, hc]
  have hd : (handle_delete_request env r).outcome = .resp INTERNAL_ERROR "Internal error" := by
    cases hc : env.connectOk <;> rw [handle_delete_request, h, hc]
  refine ⟨hg, hp, hd, ?_, ?_, ?_⟩
  · rw [hg]; decide
  · rw [hp]; decide
  · rw [hd]; decide

/-- Witness for C7 at a concrete non-numeric id token. -/
theorem C7_bad_id_internal_error_witness :
    (handle_get_request testEnv "GET /users/abc HTTP/1.1").outcome =
      Outcome.resp INTERNAL_ERROR "Internal error" ∧
    (handle_delete_request testEnv "DELETE /users/abc HTTP/1.1").outcome =
      Outcome.resp INTERNAL_ERROR "Internal error" :=
  ⟨(C7_bad_id_internal_error.2 testEnv "GET /users/abc HTTP/1.1" (by decide)).1,
    (C7_bad_id_internal_error.2 testEnv "DELETE /users/abc HTTP/1.1" (by decide)).2.2.1⟩

/-- Store well-formedness: every persisted id is below the next value of the
id sequence (ids are assigned monotonically and never reused; spec §3). -/
def Store.WF (s : Store) : Prop :=
  ∀ r ∈ s.rows, r.id < s.nextId

/-- C5: for a valid payload (non-empty name and email), Create followed by
GetById on the id the store assigned yields exactly the submitted name and
email under the assigned id, and the User read back carries a non-null id. -/
theorem C5_create_then_get (s : Store) (hwf : Store.WF s)
    (name email : String) (_hn : name ≠ "") (_he : email ≠ "") :
    selectById (insertUser s name email).1 (insertUser s name email).2 =
      some ⟨(insertUser s name email).2, name, email⟩ ∧
    (User.mk (some (insertUser s name email).2) name email).id ≠ none := by
  constructor
  · rw [insertUser, selectById]
    simp only [List.find?_append]
    have h1 : s.rows.find? (fun r => r.id == s.nextId) = none := by
      rw [List.find?_eq_none]
      intro x hx
      have := hwf x hx
      simp only [beq_iff_eq]
      omega
    rw [h1]
    simp
  · simp

/-- Witness for C5: creating Alice in the empty store and reading id 1 back. -/
theorem C5_create_then_get_witness :
    selectById (insertUser ⟨[], 1⟩ "Alice" "alice@x.com").1
        (insertUser ⟨[], 1⟩ "Alice" "alice@x.com").2 =
      some ⟨(insertUser ⟨[], 1⟩ "Alice" "alice@x.com").2, "Alice", "alice@x.com"⟩ ∧
    (User.mk (some (insertUser ⟨[], 1⟩ "Alice" "alice@x.com").2) "Alice" "alice@x.com").id ≠
      none :=
  C5_create_then_get ⟨[], 1⟩ (fun r hr => absurd hr (List.not_mem_nil r))
    "Alice" "alice@x.com" (by decide) (by decide)

/-- C6: the delete handler reports not-found exactly when zero rows were
affected; deletion never creates or mutates rows (the surviving rows are a
sublist of the originals); deleting an id with no matching row affects zero
rows; and deleting again after a delete of the same id affects zero rows, so
the repeated delete answers not-found. -/
theorem C6_delete_idempotent :
    (∀ (env : Env) (r : String) (id : Int),
      parseI32 (get_id r) = some id → env.connectOk = true → env.queryFails = false →
      ((handle_delete_request env r).outcome = .resp NOT_FOUND "User not found" ↔
        (deleteById env.store id).2 = 0)) ∧
    (∀ (s : Store) (id : Int), List.Sublist (deleteById s id).1.rows s.rows) ∧
    (∀ (s : Store) (id : Int), (∀ row ∈ s.rows, row.id ≠ id) → (deleteById s id).2 = 0) ∧
    (∀ (s : Store) (id : Int), (deleteById (deleteById s id).1 id).2 = 0) := by
  refine ⟨?_, ?_, ?_, ?_⟩
  · intro env r id hid hc hq
    rw [handle_delete_request, hid, hc, hq]
    dsimp only
    rw [if_neg (by simp)]
    by_cases hz : (deleteById env.store id).2 = 0
    · rw [if_pos hz]
      exact ⟨fun _ => hz, fun _ => rfl⟩
    · rw [if_neg hz]
      constructor
      · intro hcontra
        have hne : Outcome.resp OK_RESPONSE "User deleted" ≠
            Outcome.resp NOT_FOUND "User not found" := by decide
        exact absurd hcontra hne
      · intro h0
        exact absurd h0 hz
  · intro s id
    exact List.filter_sublist s.rows
  · intro s id h
    rw [deleteById]
    simp only []
    rw [List.length_eq_zero, List.filter_eq_nil_iff]
    intro a ha
    simp only [beq_iff_eq]
    exact h a ha
  · intro s id
    rw [deleteById, deleteById]
    simp only [List.filter_filter]
    rw [List.length_eq_zero, List.filter_eq_nil_iff]
    intro a _
    simp [and_comm]

/-- Witness for C6: deleting id 5 from a one-row store, and deleting it a
second time. -/
theorem C6_delete_idempotent_witness :
    ((handle_delete_request { testEnv with store := ⟨[⟨5, "Bob", "bob@x.com"⟩], 6⟩ }
        "DELETE /users/5 HTTP/1.1").outcome = Outcome.resp NOT_FOUND "User not found" ↔
      (deleteById (⟨[⟨5, "Bob", "bob@x.com"⟩], 6⟩ : Store) 5).2 = 0) ∧
    (deleteById (deleteById (⟨[⟨5, "Bob", "bob@x.com"⟩], 6⟩ : Store) 5).1 5).2 = 0 :=
  ⟨C6_delete_idempotent.1 { testEnv with store := ⟨[⟨5, "Bob", "bob@x.com"⟩], 6⟩ }
      "DELETE /users/5 HTTP/1.1" 5 (by decide) rfl rfl,
    C6_delete_idempotent.2.2.2 ⟨[⟨5, "Bob", "bob@x.com"⟩], 6⟩ 5⟩

/-- C8: the id extractor splits the request text by `"/"`, takes the field at
zero-based index 2, splits that field by whitespace and returns its first
token; a missing index-2 field, or a field whose whitespace split yields no
token, gives the empty string; the extractor is a total function, so it never
fails with an error. -/
theorem C8_get_id_algorithm (r : String) :
    get_id r =
      List.asString ((wsTokens ((rsplit slashSep r.data).getD 2 [])).headD []) ∧
    ((rsplit slashSep r.data).get? 2 = none → get_id r = "") ∧
    (wsTokens (((rsplit slashSep r.data).get? 2).getD []) = [] → get_id r = "") := by
  refine ⟨?_, ?_, ?_⟩
  · rw [get_id, List.getD_eq_get?]
  · intro h
    rw [get_id, h]
    decide
  · intro h
    rw [get_id, h]
    decide

/-- Witness for C8 at a request text with no index-2 field. -/
theorem C8_get_id_algorithm_witness : get_id "no slashes here" = "" :=
  (C8_get_id_algorithm "no slashes here").2.1 (by decide)

theorem handle_post_resp_of_ok (env : Env) (r : String) (hq : env.queryFails = false) :
    (handle_post_request env r).outcome.isResp = true := by
  rw [handle_post_request]
  cases hb : get_user_request_body env r with
  | none => cases env.connectOk <;> rfl
  | some u =>
    cases env.connectOk with
    | false => rfl
    | true =>
      dsimp only
      rw [hq, if_neg (by simp)]
      rfl

theorem handle_get_always_resp (env : Env) (r : String) :
    (handle_get_request env r).outcome.isResp = true := by
  rw [handle_get_request]
  cases hi : parseI32 (get_id r) with
  | none => cases env.connectOk <;> rfl
  | some id =>
    cases env.connectOk with
    | false => rfl
    | true =>
      dsimp only
      cases hf : env.queryFails with
      | true => rw [if_pos rfl]; rfl
      | false =>
        rw [if_neg (by simp)]
        cases selectById env.store id <;> rfl

theorem handle_get_all_resp_of_ok (env : Env) (r : String) (hq : env.queryFails = false) :
    (handle_get_all_request env r).outcome.isResp = true := by
  rw [handle_get_all_request]
  cases env.connectOk with
  | false => rfl
  | true =>
    dsimp only
    rw [hq, if_neg (by simp)]
    rfl

theorem handle_put_resp_of_ok (env : Env) (r : String) (hq : env.queryFails = false) :
    (handle_put_request env r).outcome.isResp = true := by
  rw [handle_put_request]
  cases hi : parseI32 (get_id r) with
  | none => cases hb : get_user_request_body env r <;> cases env.connectOk <;> rfl
  | some id =>
    cases hb : get_user_request_body env r with
    | none => cases env.connectOk <;> rfl
    | some u =>
      cases env.connectOk with
      | false => rfl
      | true =>
        dsimp only
        rw [hq, if_neg (by simp)]
        rfl

theorem handle_delete_resp_of_ok (env : Env) (r : String) (hq : env.queryFails = false) :
    (handle_delete_request env r).outcome.isResp = true := by
  rw [handle_delete_request]
  cases hi : parseI32 (get_id r) with
  | none => cases env.connectOk <;> rfl
  | some id =>
    cases env.connectOk with
    | false => rfl
    | true =>
      dsimp only
      rw [hq, if_neg (by simp)]
      by_cases hz : (deleteById env.store id).2 = 0
      · rw [if_pos hz]; rfl
      · rw [if_neg hz]; rfl

/-- C2 counterexample: a create request whose body decodes and whose
connection succeeds but whose INSERT statement fails (a QueryError) panics at
the `unwrap` on `execute` — fatal to the process — instead of being converted
into a response to the peer. -/
theorem C2_counterexample :
    (handle_client { testEnv with queryFails := true }
        "POST /users HTTP/1.1\r\n\r\nBODY").outcome = Outcome.panicked ∧
    Outcome.isResp Outcome.panicked = false :=
  ⟨by decide, rfl⟩

/-- C2 amended: parse and connection failures are always converted into
responses: when the store does not fail the statement, every request produces
a response, and the read-by-id handler converts even a statement failure into
a (404) response; but in the create, list-all, update and delete handlers a
statement failure hits an `unwrap` and panics, which is fatal to the process
rather than scoped to the request. -/
theorem C2_errors_scoped (env : Env) (r : String) :
    (env.queryFails = false → (handle_client env r).outcome.isResp = true) ∧
    (rStartsWith r "GET /users/" = true → (handle_client env r).outcome.isResp = true) ∧
    (env.connectOk = false → (handle_client env r).outcome.isResp = true) := by
  refine ⟨?_, ?_, ?_⟩
  · intro hq
    rw [handle_client]
    cases route_action r with
    | create => exact handle_post_resp_of_ok env r hq
    | readById => exact handle_get_always_resp env r
    | listAll => exact handle_get_all_resp_of_ok env r hq
    | updateRoute => exact handle_put_resp_of_ok env r hq
    | deleteRoute => exact handle_delete_resp_of_ok env r hq
    | noMatch => rfl
  · intro h
    rw [handle_client, route_get_one h]
    exact handle_get_always_resp env r
  · intro hc
    rw [handle_client]
    cases route_action r with
    | create =>
      rw [handle_post_request, hc]
      cases hb : get_user_request_body env r <;> rfl
    | readById =>
      rw [handle_get_request, hc]
      cases hi : parseI32 (get_id r) <;> rfl
    | listAll => rw [handle_get_all_request, hc]; rfl
    | updateRoute =>
      rw [handle_put_request, hc]
      cases hi : parseI32 (get_id r) <;> cases hb : get_user_request_body env r <;> rfl
    | deleteRoute =>
      rw [handle_delete_request, hc]
      cases hi : parseI32 (get_id r) <;> rfl
    | noMatch => rfl

/-- Witness for C2 (amended) at a concrete delete request in an environment
whose statements succeed. -/
theorem C2_errors_scoped_witness :
    (handle_client testEnv "DELETE /users/9 HTTP/1.1").outcome.isResp = true :=
  (C2_errors_scoped testEnv "DELETE /users/9 HTTP/1.1").1 rfl

/-- C3 counterexample: an update whose UPDATE statement affects zero rows (the
store is empty) still answers 200 "User updated", not the 404 outcome the
claim requires for zero affected rows. -/
theorem C3_counterexample :
    (updateById testEnv.store 5 "Bob" "bob@x.com").2 = 0 ∧
    (handle_put_request testEnv "PUT /users/5 HTTP/1.1\r\n\r\nBODY").outcome =
      Outcome.resp OK_RESPONSE "User updated" ∧
    Outcome.resp OK_RESPONSE "User updated" ≠ Outcome.resp NOT_FOUND "User not found" :=
  ⟨by decide, by decide, by decide⟩

/-- C3 amended: the update-by-id handler never reports not-found: whenever the
id parses, the body decodes, and the connection and statement succeed, it
answers 200 "User updated" whatever the number of affected rows (which it
discards), replacing name and email on every row matching the id. -/
theorem C3_update_ignores_row_count (env : Env) (r : String) (id : Int) (user : User)
    (hid : parseI32 (get_id r) = some id) (hb : get_user_request_body env r = some user)
    (hc : env.connectOk = true) (hq : env.queryFails = false) :
    (handle_put_request env r).outcome = .resp OK_RESPONSE "User updated" ∧
    (handle_put_request env r).store = (updateById env.store id user.name user.email).1 := by
  rw [handle_put_request, hid, hb, hc]
  dsimp only
  rw [hq, if_neg (by simp)]
  exact ⟨rfl, rfl⟩

/-- Witness for C3 (amended) at a concrete update request against the empty
store. -/
theorem C3_update_ignores_row_count_witness :
    (handle_put_request testEnv "PUT /users/5 HTTP/1.1\r\n\r\nBODY").outcome =
      Outcome.resp OK_RESPONSE "User updated" ∧
    (handle_put_request testEnv "PUT /users/5 HTTP/1.1\r\n\r\nBODY").store =
      (updateById testEnv.store 5 "Bob" "bob@x.com").1 :=
  C3_update_ignores_row_count testEnv "PUT /users/5 HTTP/1.1\r\n\r\nBODY" 5
    ⟨none, "Bob", "bob@x.com"⟩ (by decide) (by decide) rfl rfl

/-- The last chunk of the split on the header/body separator: the extracted
body at the character-list level. -/
def bodyChunk (s : List Char) : List Char :=
  (rsplit headerBodySep s).getLastD []

/-- The default of `getLastD` is immaterial behind a cons with a non-empty
tail. -/
theorem getLastD_irrel {α : Type} {l : List α} (h : l ≠ []) {a d : α} :
    (a :: l).getLastD d = l.getLastD d := by
  cases l with
  | nil => exact absurd rfl h
  | cons b m => simp only [List.getLastD_cons]

/-- Characterization of the extracted body: the body equals the whole input
when the separator does not occur in it; in general the body is a
separator-free suffix of the input, preceded by an occurrence of the
separator whenever the input contains one. -/
theorem bodyChunk_spec : ∀ (n : Nat) (s : List Char), s.length < n →
    ((¬ ∃ x y, s = x ++ headerBodySep ++ y) → bodyChunk s = s) ∧
    (∃ pre, s = pre ++ bodyChunk s) ∧
    (¬ ∃ x y, bodyChunk s = x ++ headerBodySep ++ y) ∧
    ((∃ x y, s = x ++ headerBodySep ++ y) →
      ∃ pre, s = pre ++ headerBodySep ++ bodyChunk s) := by
  intro n
  induction n with
  | zero => intro s h; omega
  | succ m ih =>
    intro s hlen
    cases hsf : splitFirst headerBodySep s with
    | none =>
      have hbody : bodyChunk s = s := by
        rw [bodyChunk, rsplit_of_none hsf]
        rfl
      have hno : ¬ ∃ x y, s = x ++ headerBodySep ++ y := by
        rintro ⟨x, y, hxy⟩
        have hs : (splitFirst headerBodySep s).isSome := by
          rw [hxy]
          exact splitFirst_isSome_of_decomp (by decide)
        rw [hsf] at hs
        simp at hs
      refine ⟨fun _ => hbody, ⟨[], by rw [hbody]; rfl⟩, ?_, fun hocc => absurd hocc hno⟩
      rw [hbody]
      exact hno
    | some p =>
      obtain ⟨b, a⟩ := p
      have hdec : s = b ++ headerBodySep ++ a := splitFirst_decomp hsf
      have hlt : a.length < s.length := splitFirst_length hsf
      have hbody : bodyChunk s = bodyChunk a := by
        rw [bodyChunk, rsplit_of_some hsf, getLastD_irrel rsplit_ne_nil]
        rfl
      obtain ⟨ih1, ⟨pre, hpre⟩, ih3, ih4⟩ := ih a (by omega)
      refine ⟨?_, ?_, ?_, ?_⟩
      · intro hno
        exact absurd ⟨b, a, hdec⟩ hno
      · refine ⟨b ++ headerBodySep ++ pre, ?_⟩
        rw [hbody, hdec]
        conv_lhs => rw [hpre]
        simp [List.append_assoc]
      · rw [hbody]
        exact ih3
      · intro _
        by_cases ha : ∃ x y, a = x ++ headerBodySep ++ y
        · obtain ⟨pre2, hpre2⟩ := ih4 ha
          refine ⟨b ++ headerBodySep ++ pre2, ?_⟩
          rw [hbody, hdec]
          conv_lhs => rw [hpre2]
          simp [List.append_assoc]
        · refine ⟨b, ?_⟩
          rw [hbody, ih1 ha]
          exact hdec

/-- C4 counterexample: a request text with no `"\r\n\r\n"` separator yields
the entire text as the extracted body, not the empty string. -/
theorem C4_counterexample :
    splitFirst headerBodySep "POST /users x".data = none ∧
    user_request_body "POST /users x" = "POST /users x" ∧
    "POST /users x" ≠ "" :=
  ⟨by decide, by decide, by decide⟩

/-- C4 amended: body extraction takes the last chunk of the non-overlapping
left-to-right split on `"\r\n\r\n"`: the extracted body is a separator-free
suffix of the request text, preceded by an occurrence of the separator
whenever one occurs; and for every request text containing no separator the
extracted body is the entire request text (not the empty string), which JSON
decoding is then applied to. -/
theorem C4_body_extraction (r : String) :
    ((¬ ∃ x y, r.data = x ++ headerBodySep ++ y) → user_request_body r = r) ∧
    (∃ pre, r.data = pre ++ (user_request_body r).data) ∧
    (¬ ∃ x y, (user_request_body r).data = x ++ headerBodySep ++ y) ∧
    ((∃ x y, r.data = x ++ headerBodySep ++ y) →
      ∃ pre, r.data = pre ++ headerBodySep ++ (user_request_body r).data) := by
  have hb : (user_request_body r).data = bodyChunk r.data := rfl
  obtain ⟨h1, h2, h3, h4⟩ :=
    bodyChunk_spec (r.data.length + 1) r.data (Nat.lt_succ_self _)
  refine ⟨?_, ?_, ?_, ?_⟩
  · intro hno
    show List.asString (bodyChunk r.data) = r
    rw [h1 hno]
    exact String.asString_toList r
  · obtain ⟨pre, hpre⟩ := h2
    exact ⟨pre, by rw [hb]; exact hpre⟩
  · rw [hb]
    exact h3
  · intro hocc
    obtain ⟨pre, hp⟩ := h4 hocc
    exact ⟨pre, by rw [hb]; exact hp⟩

/-- Witness for C4 (amended): a separator-free request text is its own body. -/
theorem C4_body_extraction_witness : user_request_body "abc" = "abc" :=
  (C4_body_extraction "abc").1 (by
    rintro ⟨x, y, hxy⟩
    have hs : (splitFirst headerBodySep "abc".data).isSome := by
      rw [hxy]
      exact splitFirst_isSome_of_decomp (by decide)
    rw [show splitFirst headerBodySep "abc".data = none from by decide] at hs
    simp at hs)
